import Mathlib

/-!
Verification of the PortLens scoring/feedback core
(`backend/app/services/ai_service.py`).

Modelling conventions for the shallow embedding:

* Python floats are modelled by exact rationals (`Rat`); `round(x, 0)`
  is round-half-to-even (`pyRound`), `int(...)` is truncation.
* The process-global `random` generator seeded by `random.seed(seed_value)`
  is modelled by a family `prng : Nat -> Nat -> Rat`: `prng seed` is the
  stream of unit-interval draws the seeded generator would produce, indexed
  by a draw counter threaded through the run in the exact order of the
  source (`random.uniform` consumes one draw; each `_randbelow` inside
  `random.sample` consumes one draw).  All determinism and noninterference
  statements are relative to an arbitrary such family.
* `random.sample(pool, k)` raises `ValueError` when `k > len(pool)`, else
  (for every pool in this engine `len(pool) <= 20 <= 21 = setsize`, so
  CPython takes its partial-Fisher-Yates pool branch) it draws `k` indices
  `j = _randbelow(n - i)` and swaps; `pySample` models exactly that branch,
  returning the chosen phrases together with the drawn indices, and `none`
  for the `ValueError` case.
* Python exceptions (`ValueError` from `random.sample`, `IndexError` from
  `selected[0]` / `selected[1]`) are modelled by `Option`.
* The metadata fetch (`urllib` + `re` in lines 291-325) is external I/O;
  it is modelled at the match-result interface: `none` stands for a failed
  fetch or empty HTML, `some (t, d)` for fetched HTML whose title regex
  matched `t` and whose description regex matched `d` (each `Option`).
-/

namespace PortLens

/-! ## Python semantics helpers -/

/-- Python truthiness of an optional string: `None` and `""` are falsy. -/
def pyTruthy : Option String → Bool
  | none => false
  | some s => !(s == "")

/-- Python `a or b` for an optional string `a` and a string default `b`. -/
def pyOrStr (a : Option String) (b : String) : String :=
  if pyTruthy a then a.getD "" else b

/-- Contiguous-sublist test on character lists (Python substring membership). -/
def containsSub (needle : List Char) : List Char → Bool
  | [] => needle.isEmpty
  | c :: cs => needle.isPrefixOf (c :: cs) || containsSub needle cs

/-- Python `needle in hay` on strings. -/
def pyIn (needle hay : String) : Bool :=
  containsSub needle.toList hay.toList

/-- A regex `\w` character: alphanumeric or underscore. -/
def isWordChar (c : Char) : Bool := c.isAlphanum || c == '_'

/-- One step of splitting a character list into maximal `\w+` runs. -/
def splitWordsStep (c : Char) (acc : List Char × List String) :
    List Char × List String :=
  if isWordChar c then (c :: acc.1, acc.2)
  else ([], if acc.1.isEmpty then acc.2 else String.mk acc.1 :: acc.2)

/-- Python regex findall of maximal word-character runs. -/
def pyWords (s : String) : List String :=
  let r := s.toList.foldr splitWordsStep ([], [])
  if r.1.isEmpty then r.2 else String.mk r.1 :: r.2

/-- Python `s.lower()` (character-wise, over the code points). -/
def pyLower (s : String) : String := String.mk (s.toList.map Char.toLower)

/-- Python `s.strip()`: drop whitespace from both ends. -/
def pyStrip (s : String) : String :=
  String.mk (((s.toList.dropWhile Char.isWhitespace).reverse.dropWhile
    Char.isWhitespace).reverse)

/-- Python `s[:n]` (slicing by code points). -/
def pyTake (s : String) (n : ℕ) : String := String.mk (s.toList.take n)

/-- Python `round(x, 0)`: round half to even, as an integer-valued rational. -/
def pyRound (x : ℚ) : ℚ :=
  if x - (⌊x⌋ : ℚ) < 1/2 then ((⌊x⌋ : ℤ) : ℚ)
  else if 1/2 < x - (⌊x⌋ : ℚ) then ((⌊x⌋ + 1 : ℤ) : ℚ)
  else if ⌊x⌋ % 2 = 0 then ((⌊x⌋ : ℤ) : ℚ) else ((⌊x⌋ + 1 : ℤ) : ℚ)

/-- Python `max(lo, min(hi, x))`. -/
def pyClamp (lo hi x : ℚ) : ℚ := max lo (min hi x)

/-- Python `random.uniform(a, b) = a + (b - a) * random()`,
with `u` the unit-interval draw standing for `random()`. -/
def pyUniform (a b u : ℚ) : ℚ := a + (b - a) * u

/-- Python `int(x)` for a nonnegative score (truncation = floor here). -/
def pyIntTrunc (x : ℚ) : ℤ := ⌊x⌋

/-- Python `random._randbelow(m)` driven by the unit-interval draw `u`. -/
def pyRandbelow (u : ℚ) (m : ℕ) : ℕ := (⌊u * (m : ℚ)⌋).toNat

/-- The partial-Fisher-Yates loop of CPython `random.sample` (the
`n <= setsize` pool branch): at step `i`, draw `j = _randbelow(m)` with
`m = n - i`, emit `pool[j]` together with the drawn index `j`, then move
`pool[m-1]` into slot `j`.  `c` is the position in the draw stream. -/
def fyLoop (us : ℕ → ℚ) : ℕ → List String → ℕ → ℕ → List (String × ℕ)
  | _, _, _, 0 => []
  | c, pool, m, k + 1 =>
    let j := pyRandbelow (us c) m
    let chosen := pool.getD j ""
    (chosen, j) :: fyLoop us (c + 1) (pool.set j (pool.getD (m - 1) "")) (m - 1) k

/-- CPython `random.sample(pool, k)` (pool branch): `ValueError` (`none`)
when `k` exceeds the population size, else `k` draws without replacement. -/
def pySample (us : ℕ → ℚ) (c : ℕ) (pool : List String) (k : ℕ) :
    Option (List (String × ℕ)) :=
  if k ≤ pool.length then some (fyLoop us c pool pool.length k) else none

@[simp] theorem fyLoop_length (us : ℕ → ℚ) :
    ∀ (c : ℕ) (pool : List String) (m k : ℕ), (fyLoop us c pool m k).length = k := by
  intro c pool m k
  induction k generalizing c pool m with
  | zero => rfl
  | succ k ih => simp [fyLoop, ih]

/-! ## Deterministic seeding (ai_service.py lines 279-284, 692-693) -/

/-- UTF-8 bytes of a string (Python `encode` with the UTF-8 codec). -/
def utf8Bytes (s : String) : List ℕ := s.toUTF8.toList.map UInt8.toNat

/-- One byte step of the Adler-32 rolling checksum (`zlib.adler32`):
`a := (a + byte) mod 65521`, `b := (b + a) mod 65521`. -/
def adlerStep (ab : ℕ × ℕ) (x : ℕ) : ℕ × ℕ :=
  ((ab.1 + x) % 65521, (ab.2 + (ab.1 + x) % 65521) % 65521)

/-- Python `zlib.adler32(data)` with the standard initial value `a = 1, b = 0`. -/
def zlib_adler32 (bs : List ℕ) : ℕ :=
  let ab := bs.foldl adlerStep (1, 0)
  ab.2 * 65536 + ab.1

/-- Weighted byte sum used by the closed form of Adler-32:
for bytes `b_0 .. b_(n-1)` this is `sum_i (n - i) * b_i`. -/
def adlerWsum : List ℕ → ℕ
  | [] => 0
  | x :: xs => (xs.length + 1) * x + adlerWsum xs

/-- The spec side of the checksum contract (spec section 4.1: the seed is a
"well-known 32-bit rolling checksum such as Adler-32"): the textbook closed
form of Adler-32, `b * 2^16 + a` with `a = (1 + sum) mod 65521` and
`b = (n + sum_i (n - i) * b_i) mod 65521`. -/
def adler32Spec (bs : List ℕ) : ℕ :=
  ((bs.length + adlerWsum bs) % 65521) * 65536 + ((1 + bs.sum) % 65521)

/-- Line 282: `seed_string = source_url if source_url else (seed_id or "default-seed")`. -/
def seed_string_of (source_url seed_id : Option String) : String :=
  if pyTruthy source_url then source_url.getD "" else pyOrStr seed_id "default-seed"

/-- Line 283: the Adler-32 checksum of the UTF-8 encoded seed string. -/
def seed_value (source_url seed_id : Option String) : ℕ :=
  zlib_adler32 (utf8Bytes (seed_string_of source_url seed_id))

/-- The spec side of the seed selection policy (spec section 4.1): "prefer
the source URL of the submission when present; otherwise fall back to the
unique identifier of the record; otherwise use a fixed literal fallback string",
with "present" read as supplied and non-empty. -/
def seedPolicySpec (source_url seed_id : Option String) : String :=
  match source_url with
  | some u => if u ≠ "" then u else
      match seed_id with
      | some s => if s ≠ "" then s else "default-seed"
      | none => "default-seed"
  | none =>
      match seed_id with
      | some s => if s ≠ "" then s else "default-seed"
      | none => "default-seed"

/-- State of the process-global `random` generator, as far as this run
observes it: seeded from a checksum (line 284 `random.seed(seed_value)`)
or reseeded from system entropy (line 693 `random.seed(None)`). -/
inductive GlobalRng where
  | seededFrom : ℕ → GlobalRng
  | entropy : GlobalRng
deriving DecidableEq

/-! ## Metadata fetch and extraction (lines 288-325)

The fetch itself is external I/O; its observable outcome is either a failure
(`fetch = none`, covering exceptions inside `fetch_meta_safe` — which returns
`""` — and empty HTML, both of which skip extraction) or fetched HTML
abstracted to the two regex match results. -/

/-- Lines 288-321: defaults `page_title = "Portfolio"`,
`page_description = ""`; the fetch runs only when `source_url` is truthy;
on a match the group is `.strip()`-ed. -/
def extractMeta (source_url : Option String)
    (fetch : Option (Option String × Option String)) : String × String :=
  if pyTruthy source_url then
    match fetch with
    | none => ("Portfolio", "")
    | some (t, d) =>
      ((match t with | some s => pyStrip s | none => "Portfolio"),
       (match d with | some s => pyStrip s | none => ""))
  else ("Portfolio", "")

/-! ## Context classification (lines 349-400) -/

/-- Lines 351-360: human-readable source name from the URL. -/
def source_name_of (source_url : Option String) : String :=
  if pyTruthy source_url then
    let l := pyLower (source_url.getD "")
    if pyIn "behance.net" l then "Behance portfolio"
    else if pyIn "dribbble.com" l then "Dribbble page"
    else if pyIn "linkedin.com" l then "LinkedIn profile"
    else "web portfolio"
  else "portfolio"

/-- Lines 365-369: stopword set removed from description words. -/
def stop_words : List String :=
  ["the", "and", "a", "to", "of", "in", "for", "is", "on", "with", "my", "i", "am"]

/-- Lines 365-369: up to five keywords from the description.  The source
takes `list(set(words) - stopwords)[:5]`; CPython set-iteration order is
implementation-defined (per-process hash randomization), so it is modelled
by a fixed deduplication order.  Keywords only ever feed surrounding text,
never scores or sampling. -/
def context_keywords_of (page_description : String) : List String :=
  if page_description == "" then []
  else ((pyWords (pyLower page_description)).dedup.filter
    (fun w => !(stop_words.contains w))).take 5

/-- Line 371: the contextual prefix of the recruiter verdict. -/
def context_prefix_of (source_name : String) (kws : List String) : String :=
  "For a " ++ source_name ++ " focusing on " ++
    (if kws.isEmpty then "digital product design" else String.intercalate ", " kws) ++ ", "

/-- Lines 373-386: platform tag from URL substrings. -/
def platform_of (source_url : Option String) : String :=
  if pyTruthy source_url then
    let url_lower := pyLower (source_url.getD "")
    if pyIn "behance.net" url_lower then "behance"
    else if pyIn "dribbble.com" url_lower then "dribbble"
    else if pyIn "linkedin.com" url_lower then "linkedin"
    else if pyIn "notion.so" url_lower || pyIn "notion.site" url_lower then "notion"
    else if pyIn "framer.com" url_lower || pyIn "webflow.io" url_lower ||
        pyIn "squarespace" url_lower then "custom"
    else "generic"
  else "generic"

/-- Lines 388-400: specialization tag from keyword sets scanned over the
lower-cased `title + " " + description`, first match wins. -/
def specialization_of (all_text : String) : String :=
  if pyIn "mobile" all_text || pyIn "ios" all_text || pyIn "android" all_text ||
      pyIn "app" all_text then "mobile"
  else if pyIn "web" all_text || pyIn "saas" all_text || pyIn "dashboard" all_text ||
      pyIn "webapp" all_text then "web"
  else if pyIn "brand" all_text || pyIn "identity" all_text || pyIn "logo" all_text ||
      pyIn "visual identity" all_text then "branding"
  else if pyIn "ux research" all_text || pyIn "user research" all_text ||
      pyIn "usability" all_text then "research"
  else if pyIn "3d" all_text || pyIn "motion" all_text || pyIn "animation" all_text ||
      pyIn "video" all_text then "motion"
  else "general"

/-! ## Score synthesis (lines 327-347) — draw counter 0 to 4 -/

/-- Line 329: `base_quality = random.uniform(65, 88)`. -/
def base_quality (us : ℕ → ℚ) : ℚ := pyUniform 65 88 (us 0)

/-- Lines 331, 336. -/
def visual_score (us : ℕ → ℚ) : ℚ :=
  pyClamp 40 99 (pyRound (base_quality us + pyUniform (-10) 10 (us 1)))

/-- Lines 332, 337. -/
def ux_score (us : ℕ → ℚ) : ℚ :=
  pyClamp 40 99 (pyRound (base_quality us + pyUniform (-15) 10 (us 2)))

/-- Lines 333, 338. -/
def communication_score (us : ℕ → ℚ) : ℚ :=
  pyClamp 40 99 (pyRound (base_quality us + pyUniform (-10) 10 (us 3)))

/-- Lines 341-343: `overall_score = round(visual*0.35 + ux*0.40 + communication*0.25, 0)`. -/
def overall_score (us : ℕ → ℚ) : ℚ :=
  pyRound (visual_score us * 0.35 + ux_score us * 0.40 + communication_score us * 0.25)

/-- Lines 346-347. -/
def hireability_score (us : ℕ → ℚ) : ℚ :=
  pyClamp 42 99 (pyRound (overall_score us + pyUniform (-3) 3 (us 4)))

/-! ## Phrase pools (lines 402-564), transcribed verbatim -/

/-- Phrase pool `phrases_high_visual` (20 entries). -/
def phrases_high_visual : List String := [
  "masterfully applies the Golden Ratio to establish a harmonious grid structure.",
  "demonstrates exceptional command of typographic rhythm and vertical cadence.",
  "utilizes Gestalt principles (Proximity, Common Region) to create intuitive grouping.",
  "exhibits a refined color methodology that balances brand equity with WCAG 2.1 accessibility.",
  "employs sophisticated use of negative space to drive cognitive focus.",
  "showcases a pixel-perfect execution reminiscent of top-tier agency work.",
  "achieves visual harmony through deliberate contrast ratios and type scaling.",
  "presents a cohesive design system with reusable components and patterns.",
  "demonstrates mastery of visual weight distribution across the layout.",
  "employs a restrained color palette that elevates rather than overwhelms.",
  "showcases exceptional attention to micro-details like icon consistency and shadow depth.",
  "balances aesthetic appeal with functional clarity in every screen.",
  "presents a premium visual language that positions the designer at senior level.",
  "demonstrates understanding of platform-specific design guidelines (iOS/Material).",
  "achieves elegant data visualization that transforms complexity into clarity.",
  "uses motion design principles even in static mockups through implied movement.",
  "showcases typography that breathes - proper line-height and letter-spacing throughout.",
  "presents a color system with clear semantic meaning (success/error/warning states).",
  "demonstrates sophisticated use of depth through layering and elevation.",
  "achieves visual storytelling through thoughtful image selection and cropping."]

/-- Phrase pool `phrases_mid_visual` (15 entries). -/
def phrases_mid_visual : List String := [
  "maintains a solid visual hierarchy but could push for more dynamic tension.",
  "adheres to fundamental grid systems, though the gutters feel slightly constrained.",
  "uses a consistent design language that aligns with current material design standards.",
  "achieves a clean aesthetic, though the typographic scale lacks some contrast.",
  "presents a polished interface that communicates reliability.",
  "shows good baseline visual skills with room for elevated execution.",
  "uses color effectively though the palette could be more distinctive.",
  "demonstrates competent layout skills that meet industry expectations.",
  "presents readable typography though the hierarchy could be sharper.",
  "shows understanding of visual principles with some inconsistencies in application.",
  "achieves functional clarity though the visual personality is understated.",
  "uses spacing systematically though the rhythm could be more intentional.",
  "demonstrates solid foundational skills ready for refinement.",
  "presents work that is visually competent with clear growth potential.",
  "shows awareness of trends without fully owning a distinctive style."]

/-- Phrase pool `phrases_low_visual` (10 entries). -/
def phrases_low_visual : List String := [
  "shows potential but requires more rigour in fundamental execution.",
  "presents ideas clearly, but the visual polish detracts from the solution.",
  "would benefit from a stricter adherence to a 4pt/8pt grid system.",
  "needs stronger typographic hierarchy to guide the viewer\x27s attention.",
  "could improve contrast ratios for better accessibility compliance.",
  "shows emerging skills that would benefit from systematic study.",
  "presents work that prioritizes content over visual refinement.",
  "demonstrates foundational understanding with notable gaps in execution.",
  "would benefit from studying established design systems like Material or HIG.",
  "shows enthusiasm for design with room for technical skill development."]

/-- Phrase pool `phrases_high_ux` (20 entries). -/
def phrases_high_ux : List String := [
  "articulates a user journey map that perfectly addresses pain points and friction.",
  "demonstrates rigorous usability testing methodology with clear iteration cycles.",
  "optimizes interaction cost (Fitt\x27s Law, Hick\x27s Law) to reduce cognitive load.",
  "showcases deep empathy for the persona through comprehensive research artifacts.",
  "seamlessly integrates micro-interactions that enhance perceived performance.",
  "presents a research-driven approach with clear insights-to-design mapping.",
  "demonstrates systems thinking in how components interconnect across flows.",
  "shows evidence of user testing with documented findings and iterations.",
  "articulates clear success metrics and how design decisions ladder up to them.",
  "presents accessibility as a core consideration, not an afterthought.",
  "demonstrates understanding of edge cases and error states in user flows.",
  "shows strategic thinking in feature prioritization and MVP scoping.",
  "presents comprehensive user personas based on actual research data.",
  "documents the design rationale with clear \x27why\x27 behind each decision.",
  "shows iteration history that demonstrates responsive problem-solving.",
  "integrates quantitative and qualitative research methodologies.",
  "presents information architecture that scales logically with content growth.",
  "demonstrates cross-functional collaboration in the design process.",
  "shows awareness of technical constraints while pushing for user value.",
  "presents a design that anticipates user needs proactively."]

/-- Phrase pool `phrases_mid_ux` (14 entries). -/
def phrases_mid_ux : List String := [
  "shows a clear understanding of user flows, though the edge cases need attention.",
  "presents valid wireframes, but high-fidelity prototyping could explore more states.",
  "addresses the primary use case well, but accessibility considerations are unclear.",
  "follows standard heuristic principles (Nielsen\x27s 10) for interface design.",
  "demonstrates process awareness with room for deeper research integration.",
  "shows user-centered thinking though the research artifacts are limited.",
  "presents logical task flows with some gaps in error handling.",
  "demonstrates understanding of UX fundamentals with growing sophistication.",
  "shows awareness of user needs though validation methods are not documented.",
  "presents structured thinking with room for more rigorous methodology.",
  "demonstrates problem-solving skills with opportunity for deeper analysis.",
  "shows good instincts for user needs that would benefit from research validation.",
  "presents organized thinking that could be elevated with more artifacts.",
  "demonstrates process understanding ready for more complex challenges."]

/-- Phrase pool `phrases_low_ux` (10 entries). -/
def phrases_low_ux : List String := [
  "needs to focus on the \x27Why\x27 rather than just the \x27What\x27 in case studies.",
  "would benefit from documenting the research and discovery process.",
  "shows potential for UX thinking that needs structured methodology.",
  "presents solutions without clearly articulating the problem space.",
  "would benefit from user testing to validate design assumptions.",
  "demonstrates visual skills that could be strengthened with UX process.",
  "needs clearer articulation of user needs and pain points.",
  "shows eagerness to solve problems with room for research skills.",
  "presents work that would benefit from design thinking frameworks.",
  "demonstrates creative solutions that need user validation."]

/-- Phrase pool `phrases_high_comm` (20 entries). -/
def phrases_high_comm : List String := [
  "structures the case study with a compelling STAR narrative.",
  "effectively quantifies design impact using specific KPIs (Conversion, Retention).",
  "balances high-level strategy with granular design decisions seamlessly.",
  "presents \x27Concept to Launch\x27 evolution with remarkable clarity and honesty.",
  "demonstrates strategic thinking by linking design outcomes to business goals.",
  "tells a compelling story that hooks the reader from the first paragraph.",
  "uses data visualization to communicate complex metrics accessibly.",
  "presents failures and pivots honestly, showing mature self-reflection.",
  "articulates constraints and tradeoffs with professional candor.",
  "demonstrates clear writing that respects the reader\x27s time.",
  "uses progressive disclosure to guide readers through complexity.",
  "presents before/after comparisons that quantify improvement.",
  "shows awareness of audience by tailoring depth appropriately.",
  "demonstrates thought leadership through unique insights.",
  "uses visual hierarchy in case study layout to guide reading flow.",
  "presents a clear thesis statement for each case study.",
  "shows excellent pacing that maintains reader engagement.",
  "demonstrates ability to synthesize complex projects into digestible narratives.",
  "uses quotes and testimonials to add credibility.",
  "presents work with appropriate confidence and humility balance."]

/-- Phrase pool `phrases_mid_comm` (13 entries). -/
def phrases_mid_comm : List String := [
  "clearly outlines the problem statement, but the \x27Why\x27 behind decisions is brief.",
  "presents the final solution well, but the \x27messy middle\x27 process is glossed over.",
  "communicates the design intent, but success metrics are largely qualitative.",
  "structure follows a logical flow, though the narrative hook could be stronger.",
  "presents clear information with room for more engaging storytelling.",
  "shows good organizational skills in presenting work.",
  "demonstrates ability to explain decisions with room for deeper rationale.",
  "presents work professionally with opportunity for more personality.",
  "shows structured thinking in case study organization.",
  "demonstrates clear communication with room for more impact metrics.",
  "presents projects comprehensively with opportunity for better pacing.",
  "shows awareness of storytelling with room for more compelling hooks.",
  "demonstrates professional presentation standards."]

/-- Phrase pool `phrases_low_comm` (10 entries). -/
def phrases_low_comm : List String := [
  "would benefit from clearer problem-solution-outcome structure.",
  "needs more context about the project goals and constraints.",
  "shows work without fully explaining the design thinking behind it.",
  "presents outcomes without quantifying the impact.",
  "would benefit from studying case study best practices.",
  "demonstrates work that could use stronger narrative framing.",
  "shows projects that need clearer articulation of value.",
  "presents work that would benefit from more detailed process documentation.",
  "needs stronger connection between research insights and design decisions.",
  "demonstrates work with room for storytelling skill development."]

/-! ## Detailed-feedback paragraph generation (lines 566-583) -/

/-- Lines 566-573: phrase pool selected by category and score tier
(`>= 80` high, `>= 70` mid, else low; unknown category falls back to the
low visual pool). -/
def poolFor (score : ℚ) (category : String) : List String :=
  if category == "Visual Design" then
    if 80 ≤ score then phrases_high_visual
    else if 70 ≤ score then phrases_mid_visual
    else phrases_low_visual
  else if category == "User Experience" then
    if 80 ≤ score then phrases_high_ux
    else if 70 ≤ score then phrases_mid_ux
    else phrases_low_ux
  else if category == "Communication & Storytelling" then
    if 80 ≤ score then phrases_high_comm
    else if 70 ≤ score then phrases_mid_comm
    else phrases_low_comm
  else phrases_low_visual

/-- The spec side of tier selection (spec sections 4.5, 8): the tier of a
category score, as a number — `0` low, `1` mid (`>= 70`), `2` high (`>= 80`). -/
def tierIndex (score : ℚ) : ℕ :=
  if 80 ≤ score then 2 else if 70 ≤ score then 1 else 0

/-- The spec side of tier selection: the phrase-pool table indexed by
category and tier number. -/
def tierPools (category : String) (t : ℕ) : List String :=
  if category == "Visual Design" then
    if t = 2 then phrases_high_visual
    else if t = 1 then phrases_mid_visual
    else phrases_low_visual
  else if category == "User Experience" then
    if t = 2 then phrases_high_ux
    else if t = 1 then phrases_mid_ux
    else phrases_low_ux
  else if category == "Communication & Storytelling" then
    if t = 2 then phrases_high_comm
    else if t = 1 then phrases_mid_comm
    else phrases_low_comm
  else phrases_low_visual

/-- Line 576: `selected = random.sample(pool, min(3, len(pool)))`,
the sampling call of the engine, abstracted on the pool it receives. -/
def selectPhrases (us : ℕ → ℚ) (c : ℕ) (pool : List String) :
    Option (List (String × ℕ)) :=
  pySample us c pool (min 3 pool.length)

/-- Total form of `selectPhrases`: the guarded `min` makes the requested
size at most the pool size, so the sample always succeeds. -/
def selPhrasesTotal (us : ℕ → ℚ) (c : ℕ) (pool : List String) :
    List (String × ℕ) :=
  fyLoop us c pool pool.length (min 3 pool.length)

/-- Lines 578-583: assembly of the paragraph text from the selected
phrases; `none` models the `IndexError` raised by `selected[0]` or
`selected[1]` when fewer than two phrases were sampled. -/
def gpText (score : ℚ) (category : String) (keywords : List String)
    (selected : List String) : Option String :=
  match selected with
  | s0 :: s1 :: rest =>
    let base := "The " ++ category ++ " (Score: " ++ toString (pyIntTrunc score) ++
      ") " ++ s0 ++ " Additionally, " ++ s1
    let base := match rest with
      | s2 :: _ => base ++ " Furthermore, " ++ s2
      | [] => base
    let base := match keywords with
      | kw :: _ => base ++ " This aligns with the focus on \x27" ++ kw ++ "\x27."
      | [] => base
    some base
  | _ => none

/-- Total form of `gpText` (used only where the sample provably has three
elements, which rules the `IndexError` branch out). -/
def gpTextTotal (score : ℚ) (category : String) (keywords : List String)
    (selected : List String) : String :=
  (gpText score category keywords selected).getD ""

/-- A generated detailed-feedback paragraph: its final text together with
the trace of phrase indices drawn by `random.sample` (the `j` values of
the Fisher-Yates loop), which identifies the selected phrases. -/
structure Paragraph where
  text : String
  idxs : List ℕ
deriving DecidableEq

/-- Lines 566-583: `generate_paragraph(score, category, keywords)`.  `c` is
the position in the draw stream of the seeded generator. -/
def generate_paragraph (us : ℕ → ℚ) (c : ℕ) (score : ℚ) (category : String)
    (keywords : List String) : Option Paragraph :=
  match selectPhrases us c (poolFor score category) with
  | none => none
  | some selected =>
    match gpText score category keywords (selected.map Prod.fst) with
    | none => none
    | some t => some ⟨t, selected.map Prod.snd⟩

/-- The paragraph `generate_paragraph` provably produces (its sampling
never raises because of the `min` guard and the pool sizes). -/
def paragraphSpec (us : ℕ → ℚ) (c : ℕ) (score : ℚ) (category : String)
    (keywords : List String) : Paragraph :=
  ⟨gpTextTotal score category keywords
      ((selPhrasesTotal us c (poolFor score category)).map Prod.fst),
   (selPhrasesTotal us c (poolFor score category)).map Prod.snd⟩

/-! ## Strengths, weaknesses, recommendations (lines 585-683) -/

/-- Lines 587-617: strength paragraphs, gated by score thresholds with
platform- and specialization-specific additions. -/
def strengthsFor (visual ux comm : ℚ)
    (source_name platform specialization : String) : List String :=
  (if 80 ≤ visual then
    ["The " ++ source_name ++ " demonstrates exceptional visual polish that immediately communicates professionalism and attention to detail. The high-fidelity execution shows a designer who understands that craft quality directly impacts perceived trustworthiness. This level of visual refinement is comparable to senior-level work at design-forward companies like Stripe or Linear."]
    ++ (if platform == "behance" then
        ["The Behance project layout is used strategically to guide viewers through the work. Progressive disclosure of information keeps engagement high, and the hero images are optimized for the platform\x27s gallery format. This demonstrates platform-specific thinking that many designers overlook."]
      else if platform == "dribbble" then
        ["Shot composition shows a strong understanding of visual impact in a feed-based environment. Each piece is designed to capture attention quickly while maintaining enough depth for closer inspection. This balance is difficult to achieve and shows design maturity."]
      else if platform == "custom" then
        ["Building a custom portfolio site demonstrates valuable technical implementation skills beyond pure design. This shows recruiters that the designer can bridge the gap between design and development, making them more versatile and valuable to product teams."]
      else [])
    ++ ["Typographic hierarchy is handled with confidence, effectively guiding reader attention through content. The consistent rhythm between headings, subheadings, and body text creates a professional reading experience that respects the viewer\x27s time and cognitive load."]
  else if 70 ≤ visual then
    ["The layout is clean and functional, presenting work in a professional manner suitable for most hiring contexts. While there\x27s room to push for more distinctive styling, the fundamentals are solid and would represent the designer well in interviews.",
     "Fundamental design principles like alignment, proximity, and balance are applied consistently throughout. This foundation suggests a designer who can be trusted with production work and is ready to develop more advanced skills with mentorship."]
  else
    ["The portfolio shows emerging understanding of layout structure and composition basics. With focused practice on fundamental principles like the 8-point grid and typographic scale, the visual execution will improve significantly. The foundational thinking is present."])
  ++ (if 80 ≤ ux then
    ["Case studies demonstrate genuine user-centric thinking, clearly articulating the problem space before jumping to solutions. This problem-first approach is exactly what hiring managers look for, as it indicates a designer who will ask \x27why\x27 before \x27what.\x27"]
    ++ (if specialization == "mobile" then
        ["Strong understanding of mobile-specific UX patterns is evident throughout the work. Touch targets, gesture conventions, and thumb-zone considerations show a designer who thinks beyond visual design into true interaction design. This depth is increasingly valuable."]
      else if specialization == "web" then
        ["Expertise in responsive web design and dashboard UX shines through the portfolio. The work shows understanding of complex information architecture and how users navigate data-heavy interfaces. This specialization is in high demand."]
      else if specialization == "research" then
        ["Research methodology is exceptional, with clear synthesis from insights to design decisions. The portfolio demonstrates both applied rigor and the ability to communicate research value to stakeholders. This is a rare and valuable skill combination."]
      else [])
  else if 70 ≤ ux then
    ["Problem definitions in case studies are solid, providing enough context for viewers to understand the design challenges. With more emphasis on research methodology and testing evidence, these case studies would be even more compelling to hiring managers."]
  else [])
  ++ (if 80 ≤ comm then
    ["Storytelling throughout the portfolio is compelling, making complex projects accessible to viewers who may not be designers. The narrative arc of each case study builds interest and leads naturally to showcasing the designer\x27s impact. This communication skill is often what separates senior designers from mid-level ones."]
  else [])

/-- Lines 619-634: weakness paragraphs, gated by `< 75` per category, with
a generic fallback when no category triggers. -/
def weaknessesFor (visual ux comm : ℚ)
    (platform specialization : String) : List String :=
  let w :=
    (if visual < 75 then
      ["Visual hierarchy could be strengthened, particularly in how primary calls-to-action are presented. When CTAs don\x27t have sufficient contrast, users struggle to identify next steps, which undermines the designer\x27s credibility in demonstrating conversion-focused thinking. Consider studying effective landing pages from companies like Stripe or Wise for hierarchy inspiration."]
      ++ (if platform == "dribbble" then
          ["Dribbble shots need stronger visual hooks to stand out in the competitive feed environment. The first impression happens in milliseconds, and current compositions may be getting lost among more attention-grabbing work. Study top Dribbble performers to understand what creates immediate visual impact while maintaining substance."]
        else [])
    else [])
    ++ (if ux < 75 then
      ["Process documentation could go deeper into the \x27why\x27 behind design decisions. Currently, the case studies show what was done but don\x27t fully articulate the research insights or user feedback that drove those choices. Adding this layer transforms a portfolio from \x27pretty pictures\x27 to \x27evidence-based design thinking.\x27"]
      ++ (if specialization == "mobile" then
          ["Mobile-specific patterns like gestures, thumb zones, and device-specific considerations could be better documented. These details show a deep understanding of the platform and differentiate mobile specialists from generalists. Consider adding annotations explaining why certain interaction patterns were chosen."]
        else [])
    else [])
    ++ (if comm < 75 then
      ["Case studies would benefit from clearer before/after impact metrics. While the visual work is shown, the business or user impact isn\x27t quantified, which makes it harder for recruiters to assess ROI. Even estimated improvements (e.g., \x27projected 25% reduction in support tickets\x27) demonstrate business acumen."]
    else [])
  if w.isEmpty then
    ["While the portfolio is strong overall, adding more quantitative outcomes would further strengthen credibility. Numbers and metrics make abstract design impact concrete and memorable. Consider adding engagement data, conversion improvements, or user satisfaction scores even if they\x27re approximations."]
  else w

/-- Lines 636-683: context-aware recommendations: a universal first item,
two platform-specific items (or one generic), two specialization-specific
items, and two universal closing items. -/
def recommendationsFor (all_text platform specialization : String) : List String :=
  (if pyIn "case" all_text || pyIn "study" all_text then
    ["Outcome Focus: Lead case study titles with results (e.g., \x27Increased Conversion by 35%\x27)."]
  else
    ["Add Case Studies: Transform project showcases into narrative-driven case studies."])
  ++ (if platform == "behance" then
      ["Behance Optimization: Add more project modules and appreciation-worthy hero images.",
       "Cross-Posting: Repurpose top Behance projects as Medium articles for SEO."]
    else if platform == "dribbble" then
      ["Dribbble Strategy: Post process shots and case study breakdowns, not just finals.",
       "Tags & Timing: Optimize posting times and use trending tags for visibility."]
    else if platform == "linkedin" then
      ["LinkedIn Polish: Add a featured section with direct links to full case studies.",
       "Thought Leadership: Write short posts about your design process to build authority."]
    else if platform == "notion" then
      ["Notion Upgrade: Consider migrating to a custom domain for a more professional presence.",
       "Visual Polish: Notion templates can feel generic - add custom graphics and icons."]
    else if platform == "custom" then
      ["Performance: Ensure your custom site loads in under 3 seconds on mobile.",
       "SEO: Add meta descriptions and alt text to improve discoverability."]
    else
      ["Platform Presence: Consider creating profiles on Behance and Dribbble for visibility."])
  ++ (if specialization == "mobile" then
      ["Mobile Deep Dive: Add device-specific annotations explaining gesture decisions.",
       "Prototype Links: Include Figma/ProtoPie prototypes to demonstrate interactions."]
    else if specialization == "web" then
      ["Responsive Showcase: Add tablet and mobile versions to demonstrate adaptive thinking.",
       "Technical Context: Mention collaboration with developers and any handoff artifacts."]
    else if specialization == "branding" then
      ["Brand System: Showcase the full identity system including applications.",
       "Motion Identity: Consider adding logo animations or brand motion guidelines."]
    else if specialization == "research" then
      ["Research Portfolio: Create a dedicated research showcase with methodology templates.",
       "Impact Metrics: Quantify how research insights influenced final design decisions."]
    else if specialization == "motion" then
      ["Showreel: Create a 60-second highlight reel of your best motion work.",
       "Process Breakdown: Show the animation principles behind key moments."]
    else [])
  ++ ["Social Proof: Add testimonials from colleagues, managers, or clients.",
      "About Section: Clearly state your unique value proposition in the first sentence."]

/-! ## Verdict composition (lines 695-719) -/

/-- Line 696. -/
def verdict_quality_of (hireability : ℚ) : String :=
  if 85 ≤ hireability then "Top-Tier"
  else if 75 ≤ hireability then "Strong"
  else "Developing"

/-- Line 697. -/
def verdict_specialization_of (specialization : String) : String :=
  if specialization ≠ "general" then
    "with evident strength in " ++ specialization ++ " design"
  else "with versatile design skills"

/-- Lines 700-719: seniority label, justification and industry benchmark,
by overall-score bands. -/
def seniority_of (overall : ℚ) : String × String × String :=
  if 90 ≤ overall then
    ("Lead/Principal", "Demonstrates FAANG-level craft and strategic thinking.",
     "Comparable to Senior/Lead designers at Stripe, Figma, or Linear.")
  else if 80 ≤ overall then
    ("Senior", "Strong IC ready for complex, ambiguous problems.",
     "Comparable to Senior designers at well-funded Series B+ startups.")
  else if 70 ≤ overall then
    ("Mid-Level", "Solid fundamentals with clear path to senior.",
     "Comparable to Mid-level designers at established tech companies.")
  else if 60 ≤ overall then
    ("Junior/Mid", "Growing skills, benefits from mentorship.",
     "Comparable to Junior/Mid designers at early-stage startups.")
  else
    ("Junior", "Entry-level with potential for growth.",
     "Entry-level, suitable for internships or junior roles.")

/-- Line 727: the recruiter verdict string. -/
def recruiter_verdict_of (hireability overall : ℚ)
    (specialization ctxIntro : String) : String :=
  "A " ++ verdict_quality_of hireability ++ " Candidate " ++
    verdict_specialization_of specialization ++ ". " ++ ctxIntro ++
    "The portfolio shows " ++
    (if 80 ≤ overall then "exceptional promise and immediate hire potential"
     else if 70 ≤ overall then "clear capability with room for growth"
     else "foundational skills ready for mentorship") ++ "."

/-! ## The result record and the engine (lines 265-742) -/

/-- The dictionary returned by `generate_enhanced_mock_analysis`
(lines 721-742), with the `meta` sub-dictionary flattened into
`meta_*` fields and each `detailed_feedback` entry carried as a
`Paragraph` (text plus sampled-index trace). -/
structure MockAnalysis where
  visual_score : ℚ
  ux_score : ℚ
  communication_score : ℚ
  overall_score : ℚ
  hireability_score : ℚ
  recruiter_verdict : String
  strengths : List String
  weaknesses : List String
  recommendations : List String
  feedback_visual : Paragraph
  feedback_ux : Paragraph
  feedback_comm : Paragraph
  seniority_assessment : String
  industry_benchmark : String
  meta_title : String
  meta_description : String
  meta_platform : String
  meta_specialization : String
  ai_generated : Bool
  model_used : String
deriving DecidableEq

/-- Lines 265-742: `generate_enhanced_mock_analysis(image_paths, source_url,
seed_id)`.  `prng` is the platform generator family (see the header);
the run consults it only through the stream obtained from the Adler-32
seed of line 283.  `fetch` abstracts the metadata fetch outcome.
`image_paths` is unused by the source body, as in the source.  The second
component of the result records the final state of the process-global
generator: line 693 (`random.seed(None)`) always leaves it at `entropy`.
`none` models an uncaught exception from the sampling code. -/
def generate_enhanced_mock_analysis (prng : ℕ → ℕ → ℚ)
    (_image_paths : List String) (source_url seed_id : Option String)
    (fetch : Option (Option String × Option String)) :
    Option (MockAnalysis × GlobalRng) :=
  let us := prng (seed_value source_url seed_id)
  let tm := extractMeta source_url fetch
  let page_title := tm.1
  let page_description := tm.2
  let v := visual_score us
  let u := ux_score us
  let cm := communication_score us
  let o := overall_score us
  let h := hireability_score us
  let source_name := source_name_of source_url
  let context_keywords := context_keywords_of page_description
  let ctxIntro := context_prefix_of source_name context_keywords
  let platform := platform_of source_url
  let all_text := pyLower (page_title ++ " " ++ page_description)
  let specialization := specialization_of all_text
  let sen := seniority_of o
  do
    let fb_v ← generate_paragraph us 5 v "Visual Design" (context_keywords.take 2)
    let fb_u ← generate_paragraph us (5 + fb_v.idxs.length) u "User Experience"
      (if 2 < context_keywords.length then (context_keywords.drop 2).take 2 else [])
    let fb_c ← generate_paragraph us (5 + fb_v.idxs.length + fb_u.idxs.length) cm
      "Communication & Storytelling"
      (if 4 < context_keywords.length then context_keywords.drop 4 else [])
    some
      ({ visual_score := v
         ux_score := u
         communication_score := cm
         overall_score := o
         hireability_score := h
         recruiter_verdict := recruiter_verdict_of h o specialization ctxIntro
         strengths := (strengthsFor v u cm source_name platform specialization).take 5
         weaknesses := (weaknessesFor v u cm platform specialization).take 4
         recommendations := (recommendationsFor all_text platform specialization).take 6
         feedback_visual := fb_v
         feedback_ux := fb_u
         feedback_comm := fb_c
         seniority_assessment := sen.1 ++ " - " ++ sen.2.1
         industry_benchmark := sen.2.2
         meta_title := page_title
         meta_description :=
           if 200 < page_description.length then pyTake page_description 200 ++ "..."
           else page_description
         meta_platform := platform
         meta_specialization := specialization
         ai_generated := false
         model_used := "PortLens-Enterprise-v3" },
       GlobalRng.entropy)

/-- Total companion of the engine, used to state that the engine always
returns successfully: identical computation, with the (provably
unreachable) sampling failure paths replaced by their total forms. -/
def mockSpec (prng : ℕ → ℕ → ℚ) (_image_paths : List String)
    (source_url seed_id : Option String)
    (fetch : Option (Option String × Option String)) : MockAnalysis :=
  let us := prng (seed_value source_url seed_id)
  let tm := extractMeta source_url fetch
  let page_title := tm.1
  let page_description := tm.2
  let v := visual_score us
  let u := ux_score us
  let cm := communication_score us
  let o := overall_score us
  let h := hireability_score us
  let source_name := source_name_of source_url
  let context_keywords := context_keywords_of page_description
  let ctxIntro := context_prefix_of source_name context_keywords
  let platform := platform_of source_url
  let all_text := pyLower (page_title ++ " " ++ page_description)
  let specialization := specialization_of all_text
  let sen := seniority_of o
  let fb_v := paragraphSpec us 5 v "Visual Design" (context_keywords.take 2)
  let fb_u := paragraphSpec us (5 + fb_v.idxs.length) u "User Experience"
    (if 2 < context_keywords.length then (context_keywords.drop 2).take 2 else [])
  let fb_c := paragraphSpec us (5 + fb_v.idxs.length + fb_u.idxs.length) cm
    "Communication & Storytelling"
    (if 4 < context_keywords.length then context_keywords.drop 4 else [])
  { visual_score := v
    ux_score := u
    communication_score := cm
    overall_score := o
    hireability_score := h
    recruiter_verdict := recruiter_verdict_of h o specialization ctxIntro
    strengths := (strengthsFor v u cm source_name platform specialization).take 5
    weaknesses := (weaknessesFor v u cm platform specialization).take 4
    recommendations := (recommendationsFor all_text platform specialization).take 6
    feedback_visual := fb_v
    feedback_ux := fb_u
    feedback_comm := fb_c
    seniority_assessment := sen.1 ++ " - " ++ sen.2.1
    industry_benchmark := sen.2.2
    meta_title := page_title
    meta_description :=
      if 200 < page_description.length then pyTake page_description 200 ++ "..."
      else page_description
    meta_platform := platform
    meta_specialization := specialization
    ai_generated := false
    model_used := "PortLens-Enterprise-v3" }

/-- The five-score vector of a result. -/
def scoreVec (r : MockAnalysis) : ℚ × ℚ × ℚ × ℚ × ℚ :=
  (r.visual_score, r.ux_score, r.communication_score,
   r.overall_score, r.hireability_score)

/-- The selected-phrase-index traces of the three detailed-feedback
paragraphs of a result. -/
def idxTrace (r : MockAnalysis) : List ℕ × List ℕ × List ℕ :=
  (r.feedback_visual.idxs, r.feedback_ux.idxs, r.feedback_comm.idxs)

/-- A concrete platform-generator family used to instantiate witnesses. -/
def zeroPrng : ℕ → ℕ → ℚ := fun _ _ => 0

/-- A concrete draw stream used for concrete sampling evaluations. -/
def zeroUs : ℕ → ℚ := fun _ => 0

/-! ## The analysis driver (`analyze_portfolio`, lines 100-136)

The Gemini adapter is an external collaborator (network call to a hosted
model); its parsed reply is abstracted as a type parameter `γ`, and its
outcome (lines 108-121) as success, `asyncio.TimeoutError`, or any other
exception.  The claims only constrain the fallback path. -/

/-- How the time-boxed Gemini attempt of lines 111-121 ended. -/
inductive GeminiFailure where
  | timeout : GeminiFailure
  | exn : GeminiFailure
deriving DecidableEq

/-- The analysis result persisted by `analyze_portfolio`: either the
reply of the adapter (with its provenance flags set at lines 115-116) or
the report of the mock engine (line 132). -/
inductive AnalysisReport (γ : Type) where
  | geminiReport : γ → AnalysisReport γ
  | mockReport : MockAnalysis → AnalysisReport γ

/-- Lines 104-136: the engine-selection core of `analyze_portfolio`.
Gemini is attempted only when `GEMINI_AVAILABLE` and at least one image is
present; on timeout or exception `analysis_result` stays unset; whenever it
is unset, the enhanced mock engine runs with `seed_id = str(portfolio.id)`. -/
def analyze_portfolio_core {γ : Type} (gemini_available : Bool)
    (images : List String) (outcome : Except GeminiFailure γ)
    (prng : ℕ → ℕ → ℚ) (source_url : Option String) (portfolio_id : String)
    (fetch : Option (Option String × Option String)) :
    Option (AnalysisReport γ) :=
  let attempt : Option γ :=
    if gemini_available && !images.isEmpty then
      match outcome with
      | .ok g => some g
      | .error _ => none
    else none
  match attempt with
  | some g => some (.geminiReport g)
  | none =>
    (generate_enhanced_mock_analysis prng images source_url
      (some portfolio_id) fetch).map (fun rg => .mockReport rg.1)

/-! ## Helper lemmas -/

theorem poolFor_ge_three (score : ℚ) (category : String) :
    3 ≤ (poolFor score category).length := by
  unfold poolFor
  split_ifs <;> decide

theorem selectPhrases_eq (us : ℕ → ℚ) (c : ℕ) (pool : List String) :
    selectPhrases us c pool = some (selPhrasesTotal us c pool) := by
  unfold selectPhrases pySample selPhrasesTotal
  rw [if_pos (Nat.min_le_right _ _)]

theorem selPhrasesTotal_length (us : ℕ → ℚ) (c : ℕ) (pool : List String) :
    (selPhrasesTotal us c pool).length = min 3 pool.length := by
  unfold selPhrasesTotal
  rw [fyLoop_length]

theorem generate_paragraph_eq (us : ℕ → ℚ) (c : ℕ) (score : ℚ)
    (category : String) (keywords : List String) :
    generate_paragraph us c score category keywords =
      some (paragraphSpec us c score category keywords) := by
  have hmin : min 3 (poolFor score category).length = 3 :=
    Nat.min_eq_left (poolFor_ge_three score category)
  have hlen : (selPhrasesTotal us c (poolFor score category)).length = 3 := by
    rw [selPhrasesTotal_length, hmin]
  obtain ⟨a, b, d, habd⟩ := List.length_eq_three.mp hlen
  unfold generate_paragraph paragraphSpec
  rw [selectPhrases_eq, habd]
  rfl

theorem paragraphSpec_idxs_length (us : ℕ → ℚ) (c : ℕ) (score : ℚ)
    (category : String) (keywords : List String) :
    (paragraphSpec us c score category keywords).idxs.length = 3 := by
  unfold paragraphSpec
  simp only [List.length_map, selPhrasesTotal_length,
    Nat.min_eq_left (poolFor_ge_three score category)]

theorem mock_eq (prng : ℕ → ℕ → ℚ) (imgs : List String)
    (url sid : Option String)
    (fetch : Option (Option String × Option String)) :
    generate_enhanced_mock_analysis prng imgs url sid fetch =
      some (mockSpec prng imgs url sid fetch, GlobalRng.entropy) := by
  unfold generate_enhanced_mock_analysis mockSpec
  simp only [generate_paragraph_eq, Option.bind_eq_bind, Option.some_bind]

theorem pyClamp_ge (lo hi x : ℚ) : lo ≤ pyClamp lo hi x := le_max_left _ _

theorem pyClamp_le (lo hi x : ℚ) (h : lo ≤ hi) : pyClamp lo hi x ≤ hi :=
  max_le h (min_le_left _ _)

theorem pyRound_ge_intCast (n : ℤ) (x : ℚ) (h : (n : ℚ) ≤ x) :
    (n : ℚ) ≤ pyRound x := by
  have hf : n ≤ ⌊x⌋ := Int.le_floor.mpr h
  have hf' : (n : ℚ) ≤ (⌊x⌋ : ℚ) := by exact_mod_cast hf
  have hf1 : (n : ℚ) ≤ ((⌊x⌋ + 1 : ℤ) : ℚ) := by push_cast; linarith
  unfold pyRound
  split_ifs <;> first | exact hf' | exact hf1

theorem pyRound_le_intCast (n : ℤ) (x : ℚ) (h : x ≤ (n : ℚ)) :
    pyRound x ≤ (n : ℚ) := by
  have hfn : ⌊x⌋ ≤ n := by
    have := Int.floor_le_floor h
    rwa [Int.floor_intCast] at this
  have hfn' : (⌊x⌋ : ℚ) ≤ (n : ℚ) := by exact_mod_cast hfn
  have hfl : (⌊x⌋ : ℚ) ≤ x := Int.floor_le x
  unfold pyRound
  split_ifs with h1 h2 h3
  · exact hfn'
  · -- fractional part above one half forces the floor strictly below n
    have hlt : ⌊x⌋ < n := by
      by_contra hcon
      have : ⌊x⌋ = n := le_antisymm hfn (not_lt.mp hcon)
      rw [this] at h1 h2
      linarith
    have : ⌊x⌋ + 1 ≤ n := hlt
    push_cast
    exact_mod_cast this
  · exact hfn'
  · -- exact half: the floor is strictly below n
    have hhalf : x - (⌊x⌋ : ℚ) = 1 / 2 := le_antisymm (not_lt.mp h2) (not_lt.mp h1)
    have hlt : ⌊x⌋ < n := by
      by_contra hcon
      have : ⌊x⌋ = n := le_antisymm hfn (not_lt.mp hcon)
      rw [this] at hhalf
      linarith
    have : ⌊x⌋ + 1 ≤ n := hlt
    push_cast
    exact_mod_cast this

theorem visual_score_bounds (us : ℕ → ℚ) :
    40 ≤ visual_score us ∧ visual_score us ≤ 99 :=
  ⟨pyClamp_ge _ _ _, pyClamp_le _ _ _ (by norm_num)⟩

theorem ux_score_bounds (us : ℕ → ℚ) :
    40 ≤ ux_score us ∧ ux_score us ≤ 99 :=
  ⟨pyClamp_ge _ _ _, pyClamp_le _ _ _ (by norm_num)⟩

theorem communication_score_bounds (us : ℕ → ℚ) :
    40 ≤ communication_score us ∧ communication_score us ≤ 99 :=
  ⟨pyClamp_ge _ _ _, pyClamp_le _ _ _ (by norm_num)⟩

theorem overall_score_bounds (us : ℕ → ℚ) :
    40 ≤ overall_score us ∧ overall_score us ≤ 99 := by
  obtain ⟨hv1, hv2⟩ := visual_score_bounds us
  obtain ⟨hu1, hu2⟩ := ux_score_bounds us
  obtain ⟨hc1, hc2⟩ := communication_score_bounds us
  have h35 : (0.35 : ℚ) = 35 / 100 := by norm_num
  have h40 : (0.40 : ℚ) = 40 / 100 := by norm_num
  have h25 : (0.25 : ℚ) = 25 / 100 := by norm_num
  unfold overall_score
  constructor
  · have : ((40 : ℤ) : ℚ) ≤ visual_score us * 0.35 + ux_score us * 0.40 +
        communication_score us * 0.25 := by
      rw [h35, h40, h25]; push_cast; linarith
    have := pyRound_ge_intCast 40 _ this
    exact_mod_cast this
  · have : visual_score us * 0.35 + ux_score us * 0.40 +
        communication_score us * 0.25 ≤ ((99 : ℤ) : ℚ) := by
      rw [h35, h40, h25]; push_cast; linarith
    have := pyRound_le_intCast 99 _ this
    exact_mod_cast this

theorem hireability_score_bounds (us : ℕ → ℚ) :
    42 ≤ hireability_score us ∧ hireability_score us ≤ 99 :=
  ⟨pyClamp_ge _ _ _, pyClamp_le _ _ _ (by norm_num)⟩

theorem take_ne_nil_of_ne_nil {α : Type} {l : List α} {n : ℕ}
    (hl : l ≠ []) (hn : n ≠ 0) : l.take n ≠ [] := by
  cases l with
  | nil => exact absurd rfl hl
  | cons a t =>
    cases n with
    | zero => exact absurd rfl hn
    | succ m => simp [List.take]

theorem strengthsFor_ne_nil (v u c : ℚ) (sn p sp : String) :
    strengthsFor v u c sn p sp ≠ [] := by
  unfold strengthsFor
  split_ifs <;> simp

theorem weaknessesFor_ne_nil (v u c : ℚ) (p sp : String) :
    weaknessesFor v u c p sp ≠ [] := by
  unfold weaknessesFor
  split_ifs with h <;> simp_all

theorem recommendationsFor_ne_nil (a p sp : String) :
    recommendationsFor a p sp ≠ [] := by
  unfold recommendationsFor
  split_ifs <;> simp

theorem adler_foldl (bs : List ℕ) : ∀ a b : ℕ,
    bs.foldl adlerStep (a % 65521, b % 65521) =
      ((a + bs.sum) % 65521,
       (b + bs.length * a + adlerWsum bs) % 65521) := by
  induction bs with
  | nil =>
    intro a b
    simp [adlerWsum]
  | cons x xs ih =>
    intro a b
    show xs.foldl adlerStep (adlerStep (a % 65521, b % 65521) x) = _
    have h1 : adlerStep (a % 65521, b % 65521) x =
        ((a + x) % 65521, (b + (a + x)) % 65521) := by
      unfold adlerStep
      simp only [Prod.mk.injEq]
      omega
    rw [h1, ih (a + x) (b + (a + x))]
    simp only [List.sum_cons, List.length_cons, adlerWsum, Prod.mk.injEq]
    constructor <;> (congr 1; ring)

theorem adler32_eq_spec (bs : List ℕ) : zlib_adler32 bs = adler32Spec bs := by
  have h : bs.foldl adlerStep (1, 0) =
      ((1 + bs.sum) % 65521, (0 + bs.length * 1 + adlerWsum bs) % 65521) :=
    adler_foldl bs 1 0
  unfold zlib_adler32 adler32Spec
  rw [h]
  have h2 : 0 + bs.length * 1 + adlerWsum bs = bs.length + adlerWsum bs := by ring
  rw [h2]

theorem seed_string_eq_policy (url sid : Option String) :
    seed_string_of url sid = seedPolicySpec url sid := by
  cases url <;> cases sid <;>
    simp [seed_string_of, seedPolicySpec, pyOrStr, pyTruthy] <;>
    split_ifs <;> simp_all

theorem poolFor_eq_tierPools (category : String) (s : ℚ) :
    poolFor s category = tierPools category (tierIndex s) := by
  unfold tierIndex
  by_cases h80 : 80 ≤ s
  · rw [if_pos h80]
    unfold poolFor tierPools
    split_ifs <;> first | rfl | omega | linarith | simp_all
  · rw [if_neg h80]
    by_cases h70 : 70 ≤ s
    · rw [if_pos h70]
      unfold poolFor tierPools
      split_ifs <;> first | rfl | omega | linarith | simp_all
    · rw [if_neg h70]
      unfold poolFor tierPools
      split_ifs <;> first | rfl | omega | linarith | simp_all

theorem tierIndex_monotone {s1 s2 : ℚ} (h : s1 ≤ s2) :
    tierIndex s1 ≤ tierIndex s2 := by
  unfold tierIndex
  split_ifs <;> first | omega | linarith

/-! ## Claim theorems -/

/-! ## Claim theorems -/

/-- C1.  Determinism of the mock engine: for a fixed seed input (and fixed
fetched title/description), any two independent runs — i.e. two runs whose
platform generator produces the same draw streams — produce identical
five-score vectors and identical selected-phrase indices in the
detailed-feedback paragraphs. -/
theorem mock_analysis_deterministic (p1 p2 : ℕ → ℕ → ℚ) (imgs : List String)
    (url sid : Option String) (fetch : Option (Option String × Option String))
    (hp : ∀ s i, p1 s i = p2 s i) :
    (generate_enhanced_mock_analysis p1 imgs url sid fetch).map
        (fun rg => scoreVec rg.1) =
      (generate_enhanced_mock_analysis p2 imgs url sid fetch).map
        (fun rg => scoreVec rg.1) ∧
    (generate_enhanced_mock_analysis p1 imgs url sid fetch).map
        (fun rg => idxTrace rg.1) =
      (generate_enhanced_mock_analysis p2 imgs url sid fetch).map
        (fun rg => idxTrace rg.1) := by
  have hpp : p1 = p2 := funext fun s => funext fun i => hp s i
  subst hpp
  exact ⟨rfl, rfl⟩

/-- Witness for C1 at a concrete input. -/
theorem mock_analysis_deterministic_witness :
    (generate_enhanced_mock_analysis zeroPrng [] (some "https://example.com")
        none none).map (fun rg => scoreVec rg.1) =
      (generate_enhanced_mock_analysis zeroPrng [] (some "https://example.com")
        none none).map (fun rg => scoreVec rg.1) ∧
    (generate_enhanced_mock_analysis zeroPrng [] (some "https://example.com")
        none none).map (fun rg => idxTrace rg.1) =
      (generate_enhanced_mock_analysis zeroPrng [] (some "https://example.com")
        none none).map (fun rg => idxTrace rg.1) :=
  mock_analysis_deterministic zeroPrng zeroPrng [] (some "https://example.com")
    none none (fun _ _ => rfl)

/-- C2.  Every run of the mock engine succeeds, with
`visual, ux, communication ∈ [40, 99]`, `hireability ∈ [42, 99]`,
`overall ∈ [40, 99]`, and `overall` exactly the rounded weighted
combination `0.35 * visual + 0.40 * ux + 0.25 * communication`
(weights summing to `1`). -/
theorem mock_scores_bounded_and_weighted (prng : ℕ → ℕ → ℚ)
    (imgs : List String) (url sid : Option String)
    (fetch : Option (Option String × Option String)) :
    ∃ rg, generate_enhanced_mock_analysis prng imgs url sid fetch = some rg ∧
      40 ≤ rg.1.visual_score ∧ rg.1.visual_score ≤ 99 ∧
      40 ≤ rg.1.ux_score ∧ rg.1.ux_score ≤ 99 ∧
      40 ≤ rg.1.communication_score ∧ rg.1.communication_score ≤ 99 ∧
      42 ≤ rg.1.hireability_score ∧ rg.1.hireability_score ≤ 99 ∧
      40 ≤ rg.1.overall_score ∧ rg.1.overall_score ≤ 99 ∧
      rg.1.overall_score = pyRound (rg.1.visual_score * 0.35 +
        rg.1.ux_score * 0.40 + rg.1.communication_score * 0.25) ∧
      (0.35 + 0.40 + 0.25 : ℚ) = 1 := by
  refine ⟨_, mock_eq prng imgs url sid fetch, ?_⟩
  refine ⟨(visual_score_bounds _).1, (visual_score_bounds _).2,
    (ux_score_bounds _).1, (ux_score_bounds _).2,
    (communication_score_bounds _).1, (communication_score_bounds _).2,
    (hireability_score_bounds _).1, (hireability_score_bounds _).2,
    (overall_score_bounds _).1, (overall_score_bounds _).2, rfl, by norm_num⟩

/-- C10.  Score noninterference with fetched metadata: two runs with the
same seed inputs but different fetched titles/descriptions (and different
image lists) produce identical five-score vectors and identical
selected-phrase index traces — the fetch consumes no randomness and the
metadata never feeds a score or a sampling decision. -/
theorem mock_scores_independent_of_metadata (prng : ℕ → ℕ → ℚ)
    (imgs1 imgs2 : List String) (url sid : Option String)
    (f1 f2 : Option (Option String × Option String)) :
    (generate_enhanced_mock_analysis prng imgs1 url sid f1).map
        (fun rg => scoreVec rg.1) =
      (generate_enhanced_mock_analysis prng imgs2 url sid f2).map
        (fun rg => scoreVec rg.1) ∧
    (generate_enhanced_mock_analysis prng imgs1 url sid f1).map
        (fun rg => idxTrace rg.1) =
      (generate_enhanced_mock_analysis prng imgs2 url sid f2).map
        (fun rg => idxTrace rg.1) := by
  rw [mock_eq, mock_eq]
  exact ⟨rfl, rfl⟩

/-- C3.  On Gemini timeout, exception, or unavailability (including the
no-images case that disables the attempt), `analyze_portfolio`
unconditionally falls back to the mock engine; the resulting report has
`ai_generated = false`, `model_used = "PortLens-Enterprise-v3"`, and its
scores are still in bounds. -/
theorem analysis_falls_back_to_mock {γ : Type} (available : Bool)
    (images : List String) (outcome : Except GeminiFailure γ)
    (prng : ℕ → ℕ → ℚ) (url : Option String) (pid : String)
    (fetch : Option (Option String × Option String))
    (h : available = false ∨ images = [] ∨ ∃ f, outcome = .error f) :
    ∃ r, analyze_portfolio_core available images outcome prng url pid fetch =
        some (.mockReport r) ∧
      r.ai_generated = false ∧ r.model_used = "PortLens-Enterprise-v3" ∧
      40 ≤ r.visual_score ∧ r.visual_score ≤ 99 ∧
      40 ≤ r.ux_score ∧ r.ux_score ≤ 99 ∧
      40 ≤ r.communication_score ∧ r.communication_score ≤ 99 ∧
      42 ≤ r.hireability_score ∧ r.hireability_score ≤ 99 ∧
      40 ≤ r.overall_score ∧ r.overall_score ≤ 99 := by
  have hmock : (generate_enhanced_mock_analysis prng images url (some pid)
        fetch).map (fun rg => (AnalysisReport.mockReport rg.1 : AnalysisReport γ)) =
      some (.mockReport (mockSpec prng images url (some pid) fetch)) := by
    rw [mock_eq]
    rfl
  have hsel : analyze_portfolio_core available images outcome prng url pid fetch =
      some (.mockReport (mockSpec prng images url (some pid) fetch)) := by
    unfold analyze_portfolio_core
    rcases h with h | h | ⟨f, hf⟩
    · subst h
      simpa using hmock
    · subst h
      simpa using hmock
    · subst hf
      cases hb : available && !images.isEmpty <;> simpa [hb] using hmock
  refine ⟨_, hsel, rfl, rfl,
    (visual_score_bounds _).1, (visual_score_bounds _).2,
    (ux_score_bounds _).1, (ux_score_bounds _).2,
    (communication_score_bounds _).1, (communication_score_bounds _).2,
    (hireability_score_bounds _).1, (hireability_score_bounds _).2,
    (overall_score_bounds _).1, (overall_score_bounds _).2⟩

/-- Witness for C3: a simulated Gemini timeout with images present. -/
theorem analysis_falls_back_to_mock_witness :
    (analyze_portfolio_core (γ := Unit) true ["img.png"]
        (Except.error GeminiFailure.timeout) zeroPrng (some "https://x.dev")
        "pid-1" none).isSome = true := by
  obtain ⟨r, hr, -⟩ := analysis_falls_back_to_mock (γ := Unit) true ["img.png"]
    (Except.error GeminiFailure.timeout) zeroPrng (some "https://x.dev")
    "pid-1" none (Or.inr (Or.inr ⟨GeminiFailure.timeout, rfl⟩))
  rw [hr]
  rfl

/-- C4.  For every run (hence every reachable score combination), the
strengths, weaknesses and recommendations lists of the mock report are
non-empty and have at most 5, 4 and 6 entries respectively. -/
theorem feedback_lists_nonempty_and_bounded (prng : ℕ → ℕ → ℚ)
    (imgs : List String) (url sid : Option String)
    (fetch : Option (Option String × Option String)) :
    ∃ rg, generate_enhanced_mock_analysis prng imgs url sid fetch = some rg ∧
      rg.1.strengths ≠ [] ∧ rg.1.strengths.length ≤ 5 ∧
      rg.1.weaknesses ≠ [] ∧ rg.1.weaknesses.length ≤ 4 ∧
      rg.1.recommendations ≠ [] ∧ rg.1.recommendations.length ≤ 6 := by
  refine ⟨_, mock_eq prng imgs url sid fetch,
    take_ne_nil_of_ne_nil (strengthsFor_ne_nil _ _ _ _ _ _) (by decide), ?_,
    take_ne_nil_of_ne_nil (weaknessesFor_ne_nil _ _ _ _ _) (by decide), ?_,
    take_ne_nil_of_ne_nil (recommendationsFor_ne_nil _ _ _) (by decide), ?_⟩
  · show ((strengthsFor _ _ _ _ _ _).take 5).length ≤ 5
    rw [List.length_take]
    exact min_le_left _ _
  · show ((weaknessesFor _ _ _ _ _).take 4).length ≤ 4
    rw [List.length_take]
    exact min_le_left _ _
  · show ((recommendationsFor _ _ _).take 6).length ≤ 6
    rw [List.length_take]
    exact min_le_left _ _

/-- C5.  The classification/recommendation scenario: for the source URL
`https://dribbble.com/example` with fetched description
`mobile app redesign`, every run classifies `platform = "dribbble"` and
`specialization = "mobile"`, and the capped recommendations list contains
a dribbble-specific item and a mobile-specific item. -/
theorem dribbble_mobile_classification (prng : ℕ → ℕ → ℚ) :
    ∃ rg, generate_enhanced_mock_analysis prng []
        (some "https://dribbble.com/example") none
        (some (none, some "mobile app redesign")) = some rg ∧
      rg.1.meta_platform = "dribbble" ∧
      rg.1.meta_specialization = "mobile" ∧
      "Dribbble Strategy: Post process shots and case study breakdowns, not just finals."
        ∈ rg.1.recommendations ∧
      "Mobile Deep Dive: Add device-specific annotations explaining gesture decisions."
        ∈ rg.1.recommendations := by
  refine ⟨_, mock_eq prng [] (some "https://dribbble.com/example") none
    (some (none, some "mobile app redesign")), rfl, rfl, ?_, ?_⟩
  · show _ ∈ (recommendationsFor _ _ _).take 6
    decide
  · show _ ∈ (recommendationsFor _ _ _).take 6
    decide

/-- C6 counterexample.  The claim says the engine raises when the
sample-without-replacement size (3) exceeds the pool size; in fact the
sampling call (line 576) clamps the requested size with
`min(3, len(pool))`, so on a two-phrase pool it silently samples only two
phrases instead of raising. -/
theorem sampling_small_pool_truncates :
    selectPhrases zeroUs 0 ["alpha", "beta"] ≠ none ∧
    (selectPhrases zeroUs 0 ["alpha", "beta"]).map List.length = some 2 := by
  constructor
  · decide
  · decide

/-- C6 amended.  The sampling call never raises: the `min` guard keeps the
requested size at `min(3, len(pool))`, truncating the number of sampled
phrases when a pool is smaller than 3 instead of failing loudly; with the
actual pools of the engine (each at least 10 phrases) exactly 3 phrases are
always sampled. -/
theorem sampling_guard_truncates_instead_of_raising (us : ℕ → ℚ) (c : ℕ)
    (pool : List String) (score : ℚ) (category : String) :
    (selectPhrases us c pool).isSome = true ∧
    (selectPhrases us c pool).map List.length = some (min 3 pool.length) ∧
    ∃ sel, selectPhrases us c (poolFor score category) = some sel ∧
      sel.length = 3 := by
  refine ⟨?_, ?_, ?_⟩
  · rw [selectPhrases_eq]
    rfl
  · rw [selectPhrases_eq]
    simp [selPhrasesTotal_length]
  · exact ⟨_, selectPhrases_eq us c (poolFor score category),
      by rw [selPhrasesTotal_length, Nat.min_eq_left (poolFor_ge_three score category)]⟩

/-- C7.  Seed selection policy and reseeding: the seed string is the source
URL when present, else the record identifier, else `"default-seed"`
(proved against the spec-worded policy); the generator is initialized from
the Adler-32 checksum of the UTF-8 bytes of that string (the implementation
checksum provably equals the textbook Adler-32 closed form); and after
generation the global generator is left reseeded from system entropy. -/
theorem seeding_policy_checksum_and_reseed (url sid : Option String)
    (prng : ℕ → ℕ → ℚ) (imgs : List String)
    (fetch : Option (Option String × Option String)) :
    seed_string_of url sid = seedPolicySpec url sid ∧
    seed_value url sid = zlib_adler32 (utf8Bytes (seed_string_of url sid)) ∧
    (∀ bs : List ℕ, zlib_adler32 bs = adler32Spec bs) ∧
    (∃ r, generate_enhanced_mock_analysis prng imgs url sid fetch =
      some (r, GlobalRng.entropy)) :=
  ⟨seed_string_eq_policy url sid, rfl, adler32_eq_spec,
   ⟨_, mock_eq prng imgs url sid fetch⟩⟩

/-- C8 counterexample.  The claim says a failed metadata fetch yields an
empty title default; in fact the title defaults to the non-empty literal
`"Portfolio"` (line 288). -/
theorem fetch_failure_title_not_empty :
    ((generate_enhanced_mock_analysis zeroPrng []
        (some "https://unreachable.example") none none).map
      (fun rg => rg.1.meta_title)) = some "Portfolio" ∧
    "Portfolio" ≠ "" := by
  constructor
  · rw [mock_eq]
    rfl
  · decide

/-- C8 amended.  Metadata fetch safety: any fetch failure yields the
default title `"Portfolio"` and empty description, no run ever fails, the
reported title is exactly the extracted one, and the reported description
is truncated to 200 characters plus an ellipsis marker when longer. -/
theorem fetch_failure_defaults_and_truncation (prng : ℕ → ℕ → ℚ)
    (imgs : List String) (url sid : Option String)
    (fetch : Option (Option String × Option String)) :
    extractMeta url none = ("Portfolio", "") ∧
    ∃ rg, generate_enhanced_mock_analysis prng imgs url sid fetch = some rg ∧
      rg.1.meta_title = (extractMeta url fetch).1 ∧
      rg.1.meta_description =
        (if 200 < (extractMeta url fetch).2.length
         then pyTake (extractMeta url fetch).2 200 ++ "..."
         else (extractMeta url fetch).2) := by
  refine ⟨?_, _, mock_eq prng imgs url sid fetch, rfl, rfl⟩
  unfold extractMeta
  split <;> rfl

/-- C9.  Tier-selection monotonicity: the phrase-pool tier chosen by
`generate_paragraph` (lines 566-573) is a monotone non-decreasing function
of the category score — the pool is exactly the tier table at
`tierIndex score` (low < mid at 70, mid < high at 80), and the index is
monotone; in particular a score of 69 selects the low visual pool and a
score of 80 selects the high visual pool. -/
theorem tier_selection_monotone (s1 s2 : ℚ) (category : String)
    (h : s1 ≤ s2) :
    tierIndex s1 ≤ tierIndex s2 ∧
    poolFor s1 category = tierPools category (tierIndex s1) ∧
    poolFor s2 category = tierPools category (tierIndex s2) ∧
    poolFor (69 : ℚ) "Visual Design" = phrases_low_visual ∧
    poolFor (80 : ℚ) "Visual Design" = phrases_high_visual := by
  refine ⟨tierIndex_monotone h, poolFor_eq_tierPools category s1,
    poolFor_eq_tierPools category s2, ?_, ?_⟩
  · unfold poolFor
    norm_num
  · unfold poolFor
    norm_num

/-- Witness for C9 at the boundary pair from the spec (69 to 80). -/
theorem tier_selection_monotone_witness :
    tierIndex (69 : ℚ) ≤ tierIndex (80 : ℚ) ∧
    poolFor (69 : ℚ) "Visual Design" =
      tierPools "Visual Design" (tierIndex (69 : ℚ)) ∧
    poolFor (80 : ℚ) "Visual Design" =
      tierPools "Visual Design" (tierIndex (80 : ℚ)) ∧
    poolFor (69 : ℚ) "Visual Design" = phrases_low_visual ∧
    poolFor (80 : ℚ) "Visual Design" = phrases_high_visual :=
  tier_selection_monotone 69 80 "Visual Design" (by norm_num)

end PortLens
